import Mathlib

/-!
Shallow embedding of the ECC100 MQTT streaming control program
(`ecc_mqtt_streaming.cpp`) and proofs about the spec claims.

Machine integers are modelled as `Int`/`Nat` with explicit wrap where the
C++ behaviour depends on it (the unary negation of `int32_t` in
`int32_to_string`).  Each definition carries the line numbers of the C++
source it embeds.
-/

namespace ECC

/-- `struct PositionSample` (lines 51-61): timestamp plus four raw int32
positions and a validity bitfield (X=1, Y=2, Z=4, R=8). -/
structure PositionSample where
  timestamp_ns : Nat
  x_position : Int
  y_position : Int
  z_position : Int
  r_position : Int
  valid_mask : Nat
deriving DecidableEq, Repr

/-- The default-constructed sample (line 59-60): all zero. -/
def zeroSample : PositionSample := ⟨0, 0, 0, 0, 0, 0⟩

/-- `BUFFER_SIZE * 4` (line 66): capacity of the ring array. -/
def RING_SIZE : Nat := 4000

/-- `class LockFreeBuffer` (lines 64-100): circular buffer with a producer
cursor and a consumer cursor.  The storage array is modelled as a total
function from indices; the code only ever indexes it below `RING_SIZE`. -/
structure LockFreeBuffer where
  buf : Nat → PositionSample
  write_pos : Nat
  read_pos : Nat

/-- `LockFreeBuffer::try_write` (lines 71-82): refuse when the slot after
the write cursor is the read cursor, otherwise store the sample at the
write cursor and advance it. -/
def try_write (b : LockFreeBuffer) (sample : PositionSample) :
    Bool × LockFreeBuffer :=
  let next_write := (b.write_pos + 1) % RING_SIZE
  if next_write = b.read_pos then
    (false, b)
  else
    (true,
      { b with
        buf := fun i => if i = b.write_pos then sample else b.buf i,
        write_pos := next_write })

/-- `LockFreeBuffer::try_read` (lines 84-93): refuse when the cursors meet,
otherwise return the sample at the read cursor and advance it. -/
def try_read (b : LockFreeBuffer) : Option PositionSample × LockFreeBuffer :=
  if b.read_pos = b.write_pos then
    (none, b)
  else
    (some (b.buf b.read_pos),
      { b with read_pos := (b.read_pos + 1) % RING_SIZE })

/-- `LockFreeBuffer::available` (lines 95-99). -/
def available (b : LockFreeBuffer) : Nat :=
  if b.write_pos ≥ b.read_pos then b.write_pos - b.read_pos
  else RING_SIZE - b.read_pos + b.write_pos

/-- The full condition tested by `try_write` (line 75). -/
def isFull (b : LockFreeBuffer) : Prop :=
  (b.write_pos + 1) % RING_SIZE = b.read_pos

instance (b : LockFreeBuffer) : Decidable (isFull b) := by
  unfold isFull; infer_instance

/-- `FastStringBuffer::uint64_to_string` (lines 152-169): decimal digits of
an unsigned value, `"0"` for zero. -/
def uint64_to_string (value : Nat) : String :=
  if value = 0 then "0" else Nat.repr value

/-- Two's-complement wrap of the C++ unary negation `value = -value` on
`int32_t` (line 175): every value negates normally except `INT32_MIN`,
which stays itself. -/
def i32neg (value : Int) : Int :=
  if value = -2147483648 then value else -value

/-- `FastStringBuffer::int32_to_string` (lines 171-194): optional minus
sign, then the digit loop, which emits nothing when the (negated) value is
not positive. -/
def int32_to_string (value : Int) : String :=
  let sign := if value < 0 then "-" else ""
  let v := if value < 0 then i32neg value else value
  if v = 0 then sign ++ "0"
  else if 0 < v then sign ++ Nat.repr v.toNat
  else sign

/-- One position field of `FastStringBuffer::format_position`: the code
tests `sample.valid_mask & bit` for truthiness and emits the decimal value
or the literal `NaN`.  `bitAnd` is the already-masked value. -/
def posField (value : Int) (bitAnd : Nat) : String :=
  if bitAnd ≠ 0 then int32_to_string value else "NaN"

/-- `FastStringBuffer::format_position` (lines 108-149): slash-separated
timestamp and four maybe-`NaN` position fields. -/
def format_position (sample : PositionSample) : String :=
  uint64_to_string sample.timestamp_ns ++ "/" ++
  posField sample.x_position (sample.valid_mask &&& 1) ++ "/" ++
  posField sample.y_position (sample.valid_mask &&& 2) ++ "/" ++
  posField sample.z_position (sample.valid_mask &&& 4) ++ "/" ++
  posField sample.r_position (sample.valid_mask &&& 8)

/-! ### Character-stream primitives used by the command parser

The dispatcher parses with `std::istringstream` and `std::getline`.  We
model the stream as the remaining list of characters. -/

/-- Take characters up to (and consuming) the first occurrence of the
delimiter; the remainder of the stream is the second component. -/
def takeUntil (d : Char) : List Char → List Char × List Char
  | [] => ([], [])
  | c :: cs =>
    if c = d then ([], cs)
    else
      let p := takeUntil d cs
      (c :: p.1, p.2)

/-- `std::getline(iss, field, d)`: fails (returns `none`) exactly when the
stream is already exhausted, otherwise extracts up to the delimiter. -/
def getlineD (d : Char) (cs : List Char) : Option (List Char × List Char) :=
  if cs.isEmpty then none else some (takeUntil d cs)

/-- Whether `small` is a (character-wise) leading segment of `big`; models
`cmd.find(prefixText) == 0` from the dispatcher. -/
def startsWithL : List Char → List Char → Bool
  | [], _ => true
  | _ :: _, [] => false
  | a :: as_, b :: bs => a = b && startsWithL as_ bs

/-- The whitespace set of C `isspace`, used by `atoi`. -/
def isSpaceC (c : Char) : Bool :=
  c = ' ' || c = '\t' || c = '\n' || c = '\x0b' || c = '\x0c' || c = '\r'

/-- Leading-whitespace skip of `atoi`. -/
def skipSpacesC : List Char → List Char
  | [] => []
  | c :: cs => if isSpaceC c then skipSpacesC cs else c :: cs

/-- Digit-accumulation loop of `atoi`: consume the maximal digit run. -/
def atoiDigits : List Char → Int → Int
  | [], acc => acc
  | c :: cs, acc =>
    if c.isDigit then atoiDigits cs (acc * 10 + (c.toNat - 48 : Nat))
    else acc

/-- `std::atoi` (idealised to unbounded `Int`): skip whitespace, optional
sign, then the digit prefix; `0` when no digits lead the token. -/
def atoiL (cs : List Char) : Int :=
  match skipSpacesC cs with
  | '-' :: rest => - atoiDigits rest 0
  | '+' :: rest => atoiDigits rest 0
  | rest => atoiDigits rest 0

/-! ### Controller / system state -/

/-- `struct ControllerInfo` (lines 213-218): connection flag plus one flag
per physical axis. -/
structure ControllerInfo where
  connected : Bool
  ax0 : Bool
  ax1 : Bool
  ax2 : Bool
deriving DecidableEq, Repr

/-- `axes_connected[axis]` lookup. -/
def ControllerInfo.axisConn (ci : ControllerInfo) : Nat → Bool
  | 0 => ci.ax0
  | 1 => ci.ax1
  | 2 => ci.ax2
  | _ => false

/-- The global mutable state read by the dispatcher: the MQTT connection
flag (line 200), the two controller slots (line 220), and the sampling
configuration (lines 39-40). -/
structure SysState where
  mqtt_connected : Bool
  ctrl0 : ControllerInfo
  ctrl1 : ControllerInfo
  sample_rate_hz : Int
  sample_interval_ns : Int
deriving DecidableEq, Repr

/-- `g_controllers[c]` lookup (only slots 0 and 1 exist). -/
def SysState.ctrl (s : SysState) : Nat → ControllerInfo
  | 0 => s.ctrl0
  | _ => s.ctrl1

/-- The guard `g_controllers[c].connected && g_controllers[c].axes_connected[a]`
used by every axis-scoped command branch. -/
def connAt (s : SysState) (c a : Nat) : Bool :=
  (s.ctrl c).connected && (s.ctrl c).axisConn a

/-- `get_axis_name` (lines 252-261). -/
def get_axis_name (controller axis : Nat) : String :=
  if controller = 0 then
    if axis = 0 then "X"
    else if axis = 1 then "Y"
    else if axis = 2 then "Z"
    else "UNKNOWN"
  else if controller = 1 ∧ axis = 0 then "R"
  else "UNKNOWN"

/-- The logical-axis-name to (controller, axis) chain repeated verbatim in
the SET_AMP, SET_FREQ, MOVE and STOP branches (lines 633-636, 695-698,
757-760, 855-858). -/
def axis_name_to_physical (axis_str : List Char) : Option (Nat × Nat) :=
  if axis_str = ['X'] then some (0, 0)
  else if axis_str = ['Y'] then some (0, 1)
  else if axis_str = ['Z'] then some (0, 2)
  else if axis_str = ['R'] then some (1, 0)
  else none

/-! ### Dispatcher -/

/-- Mutating DAL (ECC driver) calls issued by the command branches.  The
read-only status queries of the STATUS branch are not traced; no claim
inspects them. -/
inductive DalCall where
  | controlTargetPosition (controller axis : Nat) (target : Int)
  | controlMove (controller axis : Nat) (enable : Bool)
  | controlAmplitude (controller axis : Nat) (amplitude : Int)
  | controlFrequency (controller axis : Nat) (frequency : Int)
deriving DecidableEq, Repr

/-- Environment supplied by the device layer: a return code for each
mutating control call, and the device-readback text of the STATUS report
body (built from read-only queries, inspected by no claim). -/
structure Env where
  dal : DalCall → Int
  status_detail : String

/-- One MQTT publication: topic, payload, QoS. -/
structure Pub where
  topic : String
  payload : String
  qos : Nat
deriving DecidableEq, Repr

/-- `MQTT_TOPIC_RESULT` (line 47). -/
def resultTopic : String := "microscope/stage/result"

/-- Every result publish in the dispatcher is guarded by
`if (g_mqtt_connected)`. -/
def pubIf (b : Bool) (p : Pub) : List Pub := if b then [p] else []

/-- Outcome of handling one command: the updated global state, the MQTT
publications made, and the mutating DAL calls issued, in order. -/
structure DispatchOut where
  state : SysState
  pubs : List Pub
  calls : List DalCall

/-- Number of messages published on the result topic. -/
def resCount (out : DispatchOut) : Nat :=
  (out.pubs.filter (fun p => p.topic = resultTopic)).length

/-- The command handling of `command_processor_thread` (lines 448-903) for
a single dequeued command, over the stream of its characters.  Each branch
mirrors the corresponding C++ block; `⟨s, [], []⟩` marks the paths that
only print to the console. -/
def processCmdChars (env : Env) (ts : Nat) (cmd : List Char) (s : SysState) :
    DispatchOut :=
  if cmd = "STATUS".data then
    -- lines 452-577: build the report and publish it with SUCCESS framing
    ⟨s,
      pubIf s.mqtt_connected
        ⟨resultTopic,
          Nat.repr ts ++ "/STATUS/SYSTEM_INFO/ALL/SUCCESS/" ++ env.status_detail,
          1⟩,
      []⟩
  else if startsWithL "SET_RATE/".data cmd then
    -- lines 579-615
    match getlineD '/' cmd with
    | none => ⟨s, [], []⟩
    | some (_, r1) =>
      match getlineD '\n' r1 with
      | none => ⟨s, [], []⟩  -- line 613: invalid format, console only
      | some (rate_str, _) =>
        if 100 ≤ atoiL rate_str ∧ atoiL rate_str ≤ 15000 then
          ⟨{ s with
              sample_rate_hz := atoiL rate_str,
              sample_interval_ns := 1000000000 / atoiL rate_str },
            pubIf s.mqtt_connected
              ⟨resultTopic,
                Nat.repr ts ++ "/COMMAND/SET_RATE/ALL/SUCCESS/Sampling rate set to "
                  ++ String.mk rate_str ++ " Hz",
                1⟩,
            []⟩
        else
          ⟨s,
            pubIf s.mqtt_connected
              ⟨resultTopic,
                Nat.repr ts ++
                  "/COMMAND/SET_RATE/ALL/FAILED/Invalid rate (must be 100-15000 Hz)",
                1⟩,
            []⟩
  else if startsWithL "SET_AMP/".data cmd then
    -- lines 617-677
    match getlineD '/' cmd with
    | none => ⟨s, [], []⟩
    | some (_, r1) =>
      match getlineD '/' r1 with
      | none => ⟨s, [], []⟩
      | some (axis_str, r2) =>
        match getlineD '\n' r2 with
        | none => ⟨s, [], []⟩  -- line 676: invalid format, console only
        | some (amp_str, _) =>
          match axis_name_to_physical axis_str with
          | none => ⟨s, [], []⟩  -- line 673: invalid axis, console only
          | some (c, a) =>
            if connAt s c a then
              if env.dal (.controlAmplitude c a (atoiL amp_str)) = 0 then
                ⟨s,
                  pubIf s.mqtt_connected
                    ⟨resultTopic,
                      Nat.repr ts ++ "/COMMAND/SET_AMP/" ++ String.mk axis_str
                        ++ "/SUCCESS/Amplitude set to " ++ String.mk amp_str ++ " mV",
                      1⟩,
                  [.controlAmplitude c a (atoiL amp_str)]⟩
              else
                ⟨s,
                  pubIf s.mqtt_connected
                    ⟨resultTopic,
                      Nat.repr ts ++ "/COMMAND/SET_AMP/" ++ String.mk axis_str
                        ++ "/FAILED/Failed to set amplitude",
                      1⟩,
                  [.controlAmplitude c a (atoiL amp_str)]⟩
            else ⟨s, [], []⟩  -- line 670: axis not connected, console only
  else if startsWithL "SET_FREQ/".data cmd then
    -- lines 679-739
    match getlineD '/' cmd with
    | none => ⟨s, [], []⟩
    | some (_, r1) =>
      match getlineD '/' r1 with
      | none => ⟨s, [], []⟩
      | some (axis_str, r2) =>
        match getlineD '\n' r2 with
        | none => ⟨s, [], []⟩  -- line 738: invalid format, console only
        | some (freq_str, _) =>
          match axis_name_to_physical axis_str with
          | none => ⟨s, [], []⟩  -- line 735: invalid axis, console only
          | some (c, a) =>
            if connAt s c a then
              if env.dal (.controlFrequency c a (atoiL freq_str)) = 0 then
                ⟨s,
                  pubIf s.mqtt_connected
                    ⟨resultTopic,
                      Nat.repr ts ++ "/COMMAND/SET_FREQ/" ++ String.mk axis_str
                        ++ "/SUCCESS/Frequency set to " ++ String.mk freq_str ++ " mHz",
                      1⟩,
                  [.controlFrequency c a (atoiL freq_str)]⟩
              else
                ⟨s,
                  pubIf s.mqtt_connected
                    ⟨resultTopic,
                      Nat.repr ts ++ "/COMMAND/SET_FREQ/" ++ String.mk axis_str
                        ++ "/FAILED/Failed to set frequency",
                      1⟩,
                  [.controlFrequency c a (atoiL freq_str)]⟩
            else ⟨s, [], []⟩  -- line 732: axis not connected, console only
  else if startsWithL "MOVE/".data cmd then
    -- lines 741-841
    match getlineD '/' cmd with
    | none => ⟨s, [], []⟩
    | some (_, r1) =>
      match getlineD '/' r1 with
      | none => ⟨s, [], []⟩
      | some (axis_str, r2) =>
        match getlineD '\n' r2 with
        | none => ⟨s, [], []⟩  -- line 840: invalid format, console only
        | some (pos_str, _) =>
          match axis_name_to_physical axis_str with
          | none =>
            ⟨s,
              pubIf s.mqtt_connected
                ⟨resultTopic,
                  Nat.repr ts ++ "/COMMAND/MOVE/" ++ String.mk axis_str
                    ++ "/FAILED/Invalid axis name",
                  1⟩,
              []⟩
          | some (c, a) =>
            if connAt s c a then
              if env.dal (.controlTargetPosition c a (atoiL pos_str)) = 0 then
                if env.dal (.controlMove c a true) = 0 then
                  ⟨s,
                    pubIf s.mqtt_connected
                      ⟨resultTopic,
                        Nat.repr ts ++ "/COMMAND/MOVE/" ++ String.mk axis_str
                          ++ "/SUCCESS/Movement started to " ++ String.mk pos_str,
                        1⟩,
                    [.controlTargetPosition c a (atoiL pos_str),
                     .controlMove c a true]⟩
                else
                  -- lines 791-802: enable failed; no rollback call is made
                  ⟨s,
                    pubIf s.mqtt_connected
                      ⟨resultTopic,
                        Nat.repr ts ++ "/COMMAND/MOVE/" ++ String.mk axis_str
                          ++ "/FAILED/Failed to enable movement",
                        1⟩,
                    [.controlTargetPosition c a (atoiL pos_str),
                     .controlMove c a true]⟩
              else
                ⟨s,
                  pubIf s.mqtt_connected
                    ⟨resultTopic,
                      Nat.repr ts ++ "/COMMAND/MOVE/" ++ String.mk axis_str
                        ++ "/FAILED/Failed to set target position",
                      1⟩,
                  [.controlTargetPosition c a (atoiL pos_str)]⟩
            else
              ⟨s,
                pubIf s.mqtt_connected
                  ⟨resultTopic,
                    Nat.repr ts ++ "/COMMAND/MOVE/" ++ String.mk axis_str
                      ++ "/FAILED/Axis not connected",
                    1⟩,
                []⟩
  else if startsWithL "STOP/".data cmd then
    -- lines 843-899
    match getlineD '/' cmd with
    | none => ⟨s, [], []⟩
    | some (_, r1) =>
      match getlineD '\n' r1 with
      | none => ⟨s, [], []⟩  -- line 898: invalid format, console only
      | some (axis_str, _) =>
        match axis_name_to_physical axis_str with
        | none => ⟨s, [], []⟩  -- line 895: invalid axis, console only
        | some (c, a) =>
          if connAt s c a then
            if env.dal (.controlMove c a false) = 0 then
              ⟨s,
                pubIf s.mqtt_connected
                  ⟨resultTopic,
                    Nat.repr ts ++ "/COMMAND/STOP/" ++ String.mk axis_str
                      ++ "/SUCCESS/Movement stopped",
                    1⟩,
                [.controlMove c a false]⟩
            else
              ⟨s,
                pubIf s.mqtt_connected
                  ⟨resultTopic,
                    Nat.repr ts ++ "/COMMAND/STOP/" ++ String.mk axis_str
                      ++ "/FAILED/Failed to stop movement",
                    1⟩,
                [.controlMove c a false]⟩
          else ⟨s, [], []⟩  -- line 892: axis not connected, console only
  else ⟨s, [], []⟩  -- line 902: unknown command, console only

/-- Handling of one command, taken off the queue as a `std::string`. -/
def processCommand (env : Env) (ts : Nat) (cmd : String) (s : SysState) :
    DispatchOut :=
  processCmdChars env ts cmd.data s

/-! ### Sampler -/

/-- `read_all_positions_fast` (lines 264-295): stamp the time, then read
controller 0 axes 0/1/2 into X/Y/Z and controller 1 axis 0 into R, setting
the mask bit for each successful read.  `rp c a = none` models a failed
`ECC_getPosition` call. -/
def read_all_positions_fast (rp : Nat → Nat → Option Int) (ts : Nat)
    (s : SysState) : PositionSample :=
  let smp : PositionSample := { zeroSample with timestamp_ns := ts }
  let smp :=
    if s.ctrl0.connected then
      let smp :=
        match (if s.ctrl0.ax0 then rp 0 0 else none) with
        | some p => { smp with x_position := p, valid_mask := smp.valid_mask ||| 1 }
        | none => smp
      let smp :=
        match (if s.ctrl0.ax1 then rp 0 1 else none) with
        | some p => { smp with y_position := p, valid_mask := smp.valid_mask ||| 2 }
        | none => smp
      match (if s.ctrl0.ax2 then rp 0 2 else none) with
      | some p => { smp with z_position := p, valid_mask := smp.valid_mask ||| 4 }
      | none => smp
    else smp
  if s.ctrl1.connected && s.ctrl1.ax0 then
    match rp 1 0 with
    | some p => { smp with r_position := p, valid_mask := smp.valid_mask ||| 8 }
    | none => smp
  else smp

/-- Loop-local state of `high_speed_sampler_thread` (lines 317-321) plus
the global counters it touches. -/
structure SamplerState where
  ring : LockFreeBuffer
  next_sample_time : Int
  sample_count : Nat
  dropped_count : Nat
  total_captured : Nat
  total_dropped : Nat

/-- `const auto target_interval = std::chrono::nanoseconds(g_sample_interval_ns)`
(line 316): the interval is read from the shared state ONCE, before the
loop, into a `const` local. -/
def sampler_target_interval (s : SysState) : Int := s.sample_interval_ns

/-- One iteration of the sampler loop (lines 323-357): write the sample to
the ring, bump the captured or dropped counters accordingly, and advance
the deadline by the thread-local `target_interval`. -/
def sampler_tick (target_interval : Int) (sample : PositionSample)
    (st : SamplerState) : SamplerState :=
  let w := try_write st.ring sample
  { ring := w.2
    next_sample_time := st.next_sample_time + target_interval
    sample_count := if w.1 then st.sample_count + 1 else st.sample_count
    dropped_count := if w.1 then st.dropped_count else st.dropped_count + 1
    total_captured := if w.1 then st.total_captured + 1 else st.total_captured
    total_dropped := if w.1 then st.total_dropped else st.total_dropped + 1 }

/-- A run of the sampler loop over a list of captured samples; the
interval parameter is the thread-start constant of line 316. -/
def sampler_run (target_interval : Int) (samples : List PositionSample)
    (st : SamplerState) : SamplerState :=
  samples.foldl (fun st smp => sampler_tick target_interval smp st) st

/-! ### Bus callback and command FIFO -/

/-- `mqtt_on_message` (lines 975-984): append the payload to the command
queue; `std::queue::push` adds at the back, unconditionally. -/
def mqtt_on_message (payload : String) (q : List String) : List String :=
  q ++ [payload]

/-- The queue contents after a sequence of bus deliveries with no
intervening dequeues. -/
def enqueueAll (msgs : List String) (q : List String) : List String :=
  msgs.foldl (fun q m => mqtt_on_message m q) q

/-! ### Capture / publish pipeline (for the counter conservation claim) -/

/-- The counters shared between `high_speed_sampler_thread` and
`batch_publisher_thread`, plus a ghost counter `lost` (not in the code)
recording samples drained from the ring by a batch that was then not
published (MQTT disconnected, or `mosquitto_publish` failed). -/
structure PipelineState where
  ring : LockFreeBuffer
  total_captured : Nat
  total_published : Nat
  total_dropped : Nat
  lost : Nat

/-- Events of a pipeline run: a sampler tick capturing one sample, or one
pass of the publisher batch loop with the given connection flag and
publish return status. -/
inductive PipelineEv where
  | tick (sample : PositionSample)
  | batch (connected : Bool) (pubOk : Bool)

/-- The publisher drain loop (line 381):
`while (batch.size() < BUFFER_SIZE && buffer.try_read(sample))`.
`fuel` is the remaining room in the batch (initially `BUFFER_SIZE`). -/
def drainLoop : Nat → LockFreeBuffer → List PositionSample →
    List PositionSample × LockFreeBuffer
  | 0, ring, batch => (batch, ring)
  | fuel + 1, ring, batch =>
    match try_read ring with
    | (none, ring1) => (batch, ring1)
    | (some smp, ring1) => drainLoop fuel ring1 (batch ++ [smp])

/-- One pipeline step.  Tick: lines 332-339 (capture or drop).  Batch:
lines 378-420 — samples are drained from the ring first; only when MQTT is
connected and the publish succeeds is `total_published` advanced; on any
other outcome the drained batch is cleared with no counter, which the
ghost `lost` records. -/
def pipelineStep (st : PipelineState) : PipelineEv → PipelineState
  | .tick smp =>
    let w := try_write st.ring smp
    { st with
      ring := w.2
      total_captured := if w.1 then st.total_captured + 1 else st.total_captured
      total_dropped := if w.1 then st.total_dropped else st.total_dropped + 1 }
  | .batch connected pubOk =>
    let d := drainLoop 1000 st.ring []
    { st with
      ring := d.2
      total_published :=
        if connected && pubOk then st.total_published + d.1.length
        else st.total_published
      lost :=
        if connected && pubOk then st.lost
        else st.lost + d.1.length }

/-- Start-of-run pipeline state: empty ring, zero counters. -/
def pipelineInit : PipelineState :=
  ⟨⟨fun _ => zeroSample, 0, 0⟩, 0, 0, 0, 0⟩

/-- A pipeline run over an event list. -/
def pipelineRun (evs : List PipelineEv) : PipelineState :=
  evs.foldl pipelineStep pipelineInit

/-- An event on which no drained sample can be thrown away: ticks always,
batch passes only when connected and the publish succeeded. -/
def evOk : PipelineEv → Bool
  | .tick _ => true
  | .batch connected pubOk => connected && pubOk

/-! ### Concrete fixtures used by counterexamples and witnesses -/

/-- A device environment in which every control call succeeds. -/
def envAllOk : Env := ⟨fun _ => 0, "detail"⟩

/-- A device environment in which enabling movement fails and every other
control call succeeds. -/
def envEnableFails : Env :=
  ⟨fun call => match call with
    | .controlMove _ _ true => 1
    | _ => 0,
   "detail"⟩

/-- Bus connected, both controllers present, all four axes connected,
initial rate 80 Hz (lines 39-40). -/
def sAll : SysState :=
  ⟨true, ⟨true, true, true, true⟩, ⟨true, true, false, false⟩, 80, 12500000⟩

/-- Same as `sAll` except physical axis 0 of controller 0 (the X axis of
the code) is not connected. -/
def sXdown : SysState :=
  ⟨true, ⟨true, false, true, true⟩, ⟨true, true, false, false⟩, 80, 12500000⟩

/-- The plain ASCII decimal notation of an integer (spec §6.1: "an ASCII
decimal integer"). -/
def decimalInt (v : Int) : String :=
  if v < 0 then "-" ++ Nat.repr (-v).toNat else Nat.repr v.toNat

/-- What §6.1 of the spec asserts a position field to be: decimal iff the
mask bit is set, `NaN` otherwise.  (`bitAnd` is the already-masked value
`valid_mask & bit`.) -/
def claimField (v : Int) (bitAnd : Nat) : String :=
  if bitAnd ≠ 0 then decimalInt v else "NaN"

/-- The field the code actually produces, after accounting for the int32
negation overflow at `INT32_MIN`. -/
def codeField (v : Int) (bitAnd : Nat) : String :=
  if bitAnd ≠ 0 then (if v = -2147483648 then "-" else decimalInt v)
  else "NaN"

/-- A concrete full ring: the write cursor is one slot behind the read
cursor. -/
def fullRing : LockFreeBuffer := ⟨fun _ => zeroSample, 3999, 0⟩

/-- Sampler state sitting on the full ring, with 5 drops already
counted. -/
def stFull : SamplerState := ⟨fullRing, 0, 0, 0, 0, 5⟩

/-- The inductive invariant of a pipeline run: cursors in range and the
captured count conserved into published, still-buffered and lost. -/
def PipelineInv (st : PipelineState) : Prop :=
  st.ring.write_pos < RING_SIZE ∧ st.ring.read_pos < RING_SIZE ∧
  st.total_captured = st.total_published + available st.ring + st.lost

/-! ### String and parsing lemmas -/

lemma str_data_append (a b : String) : (a ++ b).data = a.data ++ b.data := rfl

lemma empty_str_append (s : String) : "" ++ s = s := by
  cases s; rfl

lemma takeUntil_of_not_mem {d : Char} {l : List Char} (h : d ∉ l) :
    takeUntil d l = (l, []) := by
  induction l with
  | nil => rfl
  | cons c cs ih =>
    have hcd : ¬ c = d := fun hc => h (hc ▸ List.mem_cons_self c cs)
    have htail : d ∉ cs := fun hm => h (List.mem_cons_of_mem c hm)
    simp [takeUntil, hcd, ih htail]

lemma takeUntil_append_delim {d : Char} {l : List Char} (h : d ∉ l)
    (m : List Char) : takeUntil d (l ++ d :: m) = (l, m) := by
  induction l with
  | nil => simp [takeUntil]
  | cons c cs ih =>
    have hcd : ¬ c = d := fun hc => h (hc ▸ List.mem_cons_self c cs)
    have htail : d ∉ cs := fun hm => h (List.mem_cons_of_mem c hm)
    simp [takeUntil, hcd, ih htail]

lemma startsWithL_self_append (p l : List Char) :
    startsWithL p (p ++ l) = true := by
  induction p with
  | nil => rfl
  | cons c cs ih => simp [startsWithL, ih]

/-! ### Decimal-notation lemmas for the formatter -/

lemma uint64_to_string_eq_repr (v : Nat) : uint64_to_string v = Nat.repr v := by
  unfold uint64_to_string
  split
  · subst ‹v = 0›; rfl
  · rfl

lemma int32_to_string_eq_decimal {v : Int} (h : -2147483648 < v) :
    int32_to_string v = decimalInt v := by
  unfold int32_to_string decimalInt i32neg
  by_cases hv : v < 0
  · have hne : ¬ v = -2147483648 := by omega
    have h1 : ¬ (-v = 0) := by omega
    have h2 : (0:Int) < -v := by omega
    simp [hv, hne, h1, h2]
  · by_cases h0 : v = 0
    · subst h0; rfl
    · have h2 : (0:Int) < v := by omega
      simp [hv, h0, h2, empty_str_append]

lemma posField_eq_codeField {v : Int} (m : Nat) (hlo : -2147483648 ≤ v) :
    posField v m = codeField v m := by
  unfold posField codeField
  by_cases hm : m ≠ 0
  · by_cases hmin : v = -2147483648
    · subst hmin; simp [hm, int32_to_string]; rfl
    · have : -2147483648 < v := by omega
      simp [hm, hmin, int32_to_string_eq_decimal this]
  · simp [hm]

/-! ### Claim C3 — logical-to-physical axis mapping -/

/-- C3: the claim (and the repository README) says the mapping resolves
X to physical axis 1 and Y to physical axis 0 on the XYZ controller.  The
code disagrees with its own documentation: `get_axis_name`, the dispatcher
branches, and the sampler all place X on axis 0 and Y on axis 1 (Z on
axis 2, R on axis 0 of the second controller).  This theorem evaluates
all three mapping sites. -/
theorem axis_mapping_is_x0_y1_z2_r0 :
    get_axis_name 0 0 = "X" ∧ get_axis_name 0 1 = "Y" ∧
    get_axis_name 0 2 = "Z" ∧ get_axis_name 1 0 = "R" ∧
    axis_name_to_physical ['X'] = some (0, 0) ∧
    axis_name_to_physical ['Y'] = some (0, 1) ∧
    axis_name_to_physical ['Z'] = some (0, 2) ∧
    axis_name_to_physical ['R'] = some (1, 0) ∧
    (read_all_positions_fast (fun c a => some (100 * c + a)) 0 sAll).x_position = 0 ∧
    (read_all_positions_fast (fun c a => some (100 * c + a)) 0 sAll).y_position = 1 ∧
    (read_all_positions_fast (fun c a => some (100 * c + a)) 0 sAll).z_position = 2 ∧
    (read_all_positions_fast (fun c a => some (100 * c + a)) 0 sAll).r_position = 100 ∧
    (processCommand envAllOk 0 "MOVE/X/5" sAll).calls =
      [.controlTargetPosition 0 0 5, .controlMove 0 0 true] := by
  decide

/-! ### Claim C6 — position line formatting -/

/-- C6 counterexample: at `x = INT32_MIN` the negation in
`int32_to_string` overflows and the digit loop never runs, so the field is
the bare character `-` rather than the ASCII decimal integer the claim
demands for every int32 value including the extremes. -/
theorem format_position_int32_min_counterexample :
    format_position ⟨7, -2147483648, 0, 0, 0, 1⟩ = "7/-/NaN/NaN/NaN" ∧
    format_position ⟨7, -2147483648, 0, 0, 0, 1⟩ ≠
      "7/" ++ claimField (-2147483648) 1 ++ "/NaN/NaN/NaN" := by
  constructor
  · decide
  · decide

/-- C6 (amended): for every sample whose positions are int32 values, the
formatted line is `<timestamp>/<X>/<Y>/<Z>/<R>` with the timestamp always
the decimal of `timestamp_ns`, and each field `NaN` iff the corresponding
`valid_mask` bit is clear and the ASCII decimal of the stored value when
it is set — except for the value `-2147483648`, where the field degrades
to the single character `-`. -/
theorem format_position_decimal_or_nan (smp : PositionSample)
    (hx : -2147483648 ≤ smp.x_position ∧ smp.x_position < 2147483648)
    (hy : -2147483648 ≤ smp.y_position ∧ smp.y_position < 2147483648)
    (hz : -2147483648 ≤ smp.z_position ∧ smp.z_position < 2147483648)
    (hr : -2147483648 ≤ smp.r_position ∧ smp.r_position < 2147483648) :
    format_position smp =
      Nat.repr smp.timestamp_ns ++ "/" ++
      codeField smp.x_position (smp.valid_mask &&& 1) ++ "/" ++
      codeField smp.y_position (smp.valid_mask &&& 2) ++ "/" ++
      codeField smp.z_position (smp.valid_mask &&& 4) ++ "/" ++
      codeField smp.r_position (smp.valid_mask &&& 8) := by
  unfold format_position
  rw [uint64_to_string_eq_repr, posField_eq_codeField _ hx.1,
    posField_eq_codeField _ hy.1, posField_eq_codeField _ hz.1,
    posField_eq_codeField _ hr.1]

/-- C6 witness: the amended formatting theorem applied at a concrete
sample exercising both extremes and a clear mask bit. -/
theorem format_position_decimal_or_nan_witness :
    ((-2147483648:Int) ≤ 2147483647 ∧ (2147483647:Int) < 2147483648) ∧
    format_position ⟨5, 2147483647, -2147483648, -1, 0, 13⟩ =
      Nat.repr 5 ++ "/" ++
      codeField 2147483647 (13 &&& 1) ++ "/" ++
      codeField (-2147483648) (13 &&& 2) ++ "/" ++
      codeField (-1) (13 &&& 4) ++ "/" ++
      codeField 0 (13 &&& 8) :=
  ⟨by decide,
    format_position_decimal_or_nan ⟨5, 2147483647, -2147483648, -1, 0, 13⟩
      (by decide) (by decide) (by decide) (by decide)⟩

/-! ### Claim C7 — ring refuses writes when full -/

/-- C7: on a full ring `try_write` returns false and leaves the ring —
cursors and contents — untouched, and the sampler tick counts the drop
instead of a capture.  The final conjunct shows the overwrite-freedom that
makes this hold across every operation sequence: no `try_write`, on any
ring state, changes any unread slot. -/
theorem try_write_full_refuses (st : SamplerState) (x : PositionSample)
    (tiv : Int) (hfull : isFull st.ring) :
    try_write st.ring x = (false, st.ring)
    ∧ (sampler_tick tiv x st).ring = st.ring
    ∧ (sampler_tick tiv x st).total_dropped = st.total_dropped + 1
    ∧ (sampler_tick tiv x st).total_captured = st.total_captured
    ∧ (∀ (b : LockFreeBuffer) (y : PositionSample) (k : Nat),
        b.write_pos < RING_SIZE → b.read_pos < RING_SIZE →
        k < available b →
        ((try_write b y).2).buf ((b.read_pos + k) % RING_SIZE) =
          b.buf ((b.read_pos + k) % RING_SIZE)) := by
  have hw : try_write st.ring x = (false, st.ring) := by
    unfold isFull at hfull
    simp only [try_write]
    rw [if_pos hfull]
  refine ⟨hw, ?_, ?_, ?_, ?_⟩
  · simp [sampler_tick, hw]
  · simp [sampler_tick, hw]
  · simp [sampler_tick, hw]
  · intro b y k hwlt hrlt hk
    unfold try_write
    by_cases hf : (b.write_pos + 1) % RING_SIZE = b.read_pos
    · rw [if_pos hf]
    · have hne : ¬ ((b.read_pos + k) % RING_SIZE = b.write_pos) := by
        unfold available at hk
        by_cases hge : b.write_pos ≥ b.read_pos
        · rw [if_pos hge] at hk
          unfold RING_SIZE at *
          omega
        · rw [if_neg hge] at hk
          unfold RING_SIZE at *
          omega
      rw [if_neg hf]
      simp [hne]

/-- C7 witness: the full-ring theorem at the concrete full ring. -/
theorem try_write_full_refuses_witness :
    isFull fullRing ∧
    try_write fullRing zeroSample = (false, fullRing) ∧
    (sampler_tick 12500000 zeroSample stFull).total_dropped = 5 + 1 :=
  ⟨by decide,
   (try_write_full_refuses stFull zeroSample 12500000 (by decide)).1,
   (try_write_full_refuses stFull zeroSample 12500000 (by decide)).2.2.1⟩

/-! ### Claim C8 — the command FIFO is NOT bounded -/

lemma enqueueAll_eq_append (msgs q : List String) :
    enqueueAll msgs q = q ++ msgs := by
  induction msgs generalizing q with
  | nil => simp [enqueueAll]
  | cons m ms ih =>
    show enqueueAll ms (mqtt_on_message m q) = q ++ m :: ms
    rw [ih]
    simp [mqtt_on_message]

/-- C8 counterexample: there is no fixed capacity bounding the dispatcher
queue — `mqtt_on_message` pushes unconditionally, so a long enough arrival
burst exceeds any candidate bound. -/
theorem command_fifo_unbounded :
    ¬ ∃ C : Nat, ∀ msgs : List String, (enqueueAll msgs []).length ≤ C := by
  rintro ⟨C, h⟩
  have hC := h (List.replicate (C + 1) "STATUS")
  rw [enqueueAll_eq_append] at hC
  simp only [List.nil_append, List.length_replicate] at hC
  omega

/-- C8 (amended): the bus callback appends every arriving payload at the
back of the queue, preserving arrival order; after `k` deliveries with no
consumption the queue holds exactly `k` more commands.  Nothing is ever
dropped and no overflow counter exists. -/
theorem command_fifo_append_only (q msgs : List String) :
    enqueueAll msgs q = q ++ msgs ∧
    (enqueueAll msgs q).length = q.length + msgs.length := by
  refine ⟨enqueueAll_eq_append msgs q, ?_⟩
  rw [enqueueAll_eq_append]
  simp

/-! ### Evaluation lemmas for the dispatcher branches -/

lemma mk_data (s : String) : String.mk s.data = s := rfl

lemma str_append_assoc (a b c : String) : a ++ b ++ c = a ++ (b ++ c) := by
  apply String.ext
  simp [String.data_append, List.append_assoc]

lemma getlineD_of_ne {d : Char} {s : String} (hne : s ≠ "") (hd : d ∉ s.data) :
    getlineD d s.data = some (s.data, []) := by
  unfold getlineD
  have h : ¬ s.data.isEmpty = true := by
    cases s with
    | mk data =>
      intro h
      apply hne
      simp only [List.isEmpty_iff] at h
      simp [h]
  rw [if_neg h, takeUntil_of_not_mem hd]

lemma getlineD_append_delim {d : Char} {l : List Char} (h : d ∉ l)
    (m : List Char) : getlineD d (l ++ d :: m) = some (l, m) := by
  unfold getlineD
  have he : (l ++ d :: m).isEmpty = false := by
    cases l <;> simp [List.isEmpty]
  rw [he]
  simp [takeUntil_append_delim h]

/-- Evaluation of the SET_RATE branch (lines 579-615) on a well-formed
`SET_RATE/<token>` command. -/
lemma processCommand_set_rate (env : Env) (ts : Nat) (s : SysState)
    (rest : String) (hne : rest ≠ "") (hnl : '\n' ∉ rest.data) :
    processCommand env ts ("SET_RATE/" ++ rest) s =
      (if 100 ≤ atoiL rest.data ∧ atoiL rest.data ≤ 15000 then
        ⟨{ s with
            sample_rate_hz := atoiL rest.data,
            sample_interval_ns := 1000000000 / atoiL rest.data },
          pubIf s.mqtt_connected
            ⟨resultTopic,
              Nat.repr ts ++ "/COMMAND/SET_RATE/ALL/SUCCESS/Sampling rate set to "
                ++ String.mk rest.data ++ " Hz", 1⟩, []⟩
      else
        ⟨s, pubIf s.mqtt_connected
          ⟨resultTopic,
            Nat.repr ts ++ "/COMMAND/SET_RATE/ALL/FAILED/Invalid rate (must be 100-15000 Hz)",
            1⟩, []⟩) := by
  unfold processCommand
  rw [show (("SET_RATE/" ++ rest) : String).data =
    'S' :: 'E' :: 'T' :: '_' :: 'R' :: 'A' :: 'T' :: 'E' :: '/' :: rest.data from rfl]
  unfold processCmdChars
  rw [if_neg (by simp),
    if_pos (show startsWithL "SET_RATE/".data
      ('S' :: 'E' :: 'T' :: '_' :: 'R' :: 'A' :: 'T' :: 'E' :: '/' :: rest.data) = true from
      startsWithL_self_append "SET_RATE/".data rest.data)]
  rw [show getlineD '/' ('S' :: 'E' :: 'T' :: '_' :: 'R' :: 'A' :: 'T' :: 'E' :: '/' :: rest.data) =
    some ("SET_RATE".data, rest.data) from rfl]
  simp only [getlineD_of_ne hne hnl]

/-- Evaluation of the MOVE branch (lines 741-841) on a well-formed
`MOVE/<axis>/<token>` command whose axis name resolves. -/
lemma processCommand_move (env : Env) (ts : Nat) (s : SysState)
    (ax pos : String) (c a : Nat)
    (hax : axis_name_to_physical ax.data = some (c, a))
    (hsl : '/' ∉ ax.data) (hpne : pos ≠ "") (hnl : '\n' ∉ pos.data) :
    processCommand env ts ("MOVE/" ++ ax ++ "/" ++ pos) s =
      (if connAt s c a then
        if env.dal (.controlTargetPosition c a (atoiL pos.data)) = 0 then
          if env.dal (.controlMove c a true) = 0 then
            ⟨s, pubIf s.mqtt_connected
              ⟨resultTopic, Nat.repr ts ++ "/COMMAND/MOVE/" ++ ax
                ++ "/SUCCESS/Movement started to " ++ pos, 1⟩,
              [.controlTargetPosition c a (atoiL pos.data), .controlMove c a true]⟩
          else
            ⟨s, pubIf s.mqtt_connected
              ⟨resultTopic, Nat.repr ts ++ "/COMMAND/MOVE/" ++ ax
                ++ "/FAILED/Failed to enable movement", 1⟩,
              [.controlTargetPosition c a (atoiL pos.data), .controlMove c a true]⟩
        else
          ⟨s, pubIf s.mqtt_connected
            ⟨resultTopic, Nat.repr ts ++ "/COMMAND/MOVE/" ++ ax
              ++ "/FAILED/Failed to set target position", 1⟩,
            [.controlTargetPosition c a (atoiL pos.data)]⟩
      else
        ⟨s, pubIf s.mqtt_connected
          ⟨resultTopic, Nat.repr ts ++ "/COMMAND/MOVE/" ++ ax
            ++ "/FAILED/Axis not connected", 1⟩, []⟩) := by
  have hcmd : ("MOVE/" ++ ax ++ "/" ++ pos).data =
      'M' :: 'O' :: 'V' :: 'E' :: '/' :: (ax.data ++ '/' :: pos.data) := by
    show ((("MOVE/".data ++ ax.data) ++ "/".data) ++ pos.data) = _
    simp
  unfold processCommand
  rw [hcmd]
  unfold processCmdChars
  have h1 : startsWithL "SET_RATE/".data
      ('M' :: 'O' :: 'V' :: 'E' :: '/' :: (ax.data ++ '/' :: pos.data)) = false := rfl
  have h2 : startsWithL "SET_AMP/".data
      ('M' :: 'O' :: 'V' :: 'E' :: '/' :: (ax.data ++ '/' :: pos.data)) = false := rfl
  have h3 : startsWithL "SET_FREQ/".data
      ('M' :: 'O' :: 'V' :: 'E' :: '/' :: (ax.data ++ '/' :: pos.data)) = false := rfl
  rw [if_neg (by simp), if_neg (by simp [h1]), if_neg (by simp [h2]),
    if_neg (by simp [h3]),
    if_pos (show startsWithL "MOVE/".data
      ('M' :: 'O' :: 'V' :: 'E' :: '/' :: (ax.data ++ '/' :: pos.data)) = true from
      startsWithL_self_append "MOVE/".data (ax.data ++ '/' :: pos.data))]
  rw [show getlineD '/' ('M' :: 'O' :: 'V' :: 'E' :: '/' :: (ax.data ++ '/' :: pos.data)) =
    some ("MOVE".data, ax.data ++ '/' :: pos.data) from rfl]
  simp only [getlineD_append_delim hsl, getlineD_of_ne hpne hnl, hax]

/-! ### Claim C5 — SET_RATE range validation -/

/-- C5: a `SET_RATE/<token>` command applies the parsed rate iff it lies
in [100, 15000]; outside that range the sampling configuration is left
untouched and (with the bus connected) the dispatcher publishes the
`FAILED/Invalid rate (must be 100-15000 Hz)` result. -/
theorem set_rate_applied_iff_in_range (env : Env) (ts : Nat) (s : SysState)
    (rest : String) (hne : rest ≠ "") (hnl : '\n' ∉ rest.data) :
    ((100 ≤ atoiL rest.data ∧ atoiL rest.data ≤ 15000) →
      (processCommand env ts ("SET_RATE/" ++ rest) s).state.sample_rate_hz =
        atoiL rest.data ∧
      (processCommand env ts ("SET_RATE/" ++ rest) s).state.sample_interval_ns =
        1000000000 / atoiL rest.data) ∧
    (¬ (100 ≤ atoiL rest.data ∧ atoiL rest.data ≤ 15000) →
      (processCommand env ts ("SET_RATE/" ++ rest) s).state = s ∧
      (s.mqtt_connected = true →
        (processCommand env ts ("SET_RATE/" ++ rest) s).pubs =
          [⟨resultTopic,
            Nat.repr ts ++
              "/COMMAND/SET_RATE/ALL/FAILED/Invalid rate (must be 100-15000 Hz)",
            1⟩])) := by
  rw [processCommand_set_rate env ts s rest hne hnl]
  by_cases h : 100 ≤ atoiL rest.data ∧ atoiL rest.data ≤ 15000
  · rw [if_pos h]
    exact ⟨fun _ => ⟨rfl, rfl⟩, fun hc => absurd h hc⟩
  · rw [if_neg h]
    refine ⟨fun hc => absurd hc h, fun _ => ⟨rfl, fun hm => ?_⟩⟩
    simp [pubIf, hm]

/-- C5 witness: `SET_RATE/50` is rejected, the state is unchanged and the
range-naming FAILED result is published. -/
theorem set_rate_applied_iff_in_range_witness :
    (¬ (100 ≤ atoiL "50".data ∧ atoiL "50".data ≤ 15000)) ∧
    (processCommand envAllOk 0 ("SET_RATE/" ++ "50") sAll).state = sAll ∧
    (processCommand envAllOk 0 ("SET_RATE/" ++ "50") sAll).pubs =
      [⟨resultTopic,
        Nat.repr 0 ++
          "/COMMAND/SET_RATE/ALL/FAILED/Invalid rate (must be 100-15000 Hz)",
        1⟩] := by
  have h := (set_rate_applied_iff_in_range envAllOk 0 sAll "50"
    (by decide) (by decide)).2 (by decide)
  exact ⟨by decide, h.1, h.2 rfl⟩

/-! ### Claim C1 — results per consumed command -/

/-- C1 counterexample: `STOP/X` on a connected controller whose X axis is
not connected is consumed without publishing any result (lines 891-893
only print to the console), refuting "exactly one result per command,
including axis-scoped commands whose axis is not connected". -/
theorem stop_not_connected_publishes_no_result :
    resCount (processCommand envAllOk 0 "STOP/X" sXdown) = 0 ∧
    resCount (processCommand envAllOk 0 "STOP/X" sXdown) ≠ 1 := by
  refine ⟨by decide, by decide⟩

lemma resCount_mk_pubIf_le_one (st : SysState) (b : Bool) (p : Pub)
    (cs : List DalCall) : resCount ⟨st, pubIf b p, cs⟩ ≤ 1 := by
  cases b
  · simp [resCount, pubIf]
  · simp only [resCount, pubIf, if_pos]
    cases h : decide (p.topic = resultTopic) <;> simp [List.filter, h]

/-- C1 (amended): every consumed command produces AT MOST one message on
the result topic; malformed commands, unknown commands, and SET_AMP /
SET_FREQ / STOP commands that fail axis validation or connectivity (and
any command while the bus is disconnected) produce none. -/
theorem dispatcher_at_most_one_result (env : Env) (ts : Nat) (cmd : String)
    (s : SysState) : resCount (processCommand env ts cmd s) ≤ 1 := by
  unfold processCommand processCmdChars
  repeat' split
  all_goals
    first
      | exact resCount_mk_pubIf_le_one _ _ _ _
      | simp [resCount]

/-! ### Claim C2 — SET_RATE is not observed by the running sampler -/

/-- C2: the dispatcher accepts `SET_RATE/1000`, updates the shared
interval to 1 ms and publishes a SUCCESS result — but the sampler thread
copied `g_sample_interval_ns` into a `const` local before its loop
(line 316) and never rereads it, so every subsequent tick still advances
the deadline by the thread-start interval (12.5 ms here): the new rate is
never observable on the position stream, contradicting the claim. -/
theorem set_rate_never_reloaded_by_sampler (env : Env) (ts : Nat)
    (s : SysState) (st : SamplerState) (smp : PositionSample)
    (hiv : s.sample_interval_ns = 12500000) (hm : s.mqtt_connected = true) :
    (processCommand env ts "SET_RATE/1000" s).state.sample_interval_ns = 1000000 ∧
    (processCommand env ts "SET_RATE/1000" s).pubs =
      [⟨resultTopic,
        Nat.repr ts ++ "/COMMAND/SET_RATE/ALL/SUCCESS/Sampling rate set to 1000 Hz",
        1⟩] ∧
    (sampler_tick (sampler_target_interval s) smp st).next_sample_time =
      st.next_sample_time + 12500000 := by
  rw [show ("SET_RATE/1000" : String) = "SET_RATE/" ++ "1000" from rfl,
    processCommand_set_rate env ts s "1000" (by decide) (by decide),
    if_pos (by decide : (100:Int) ≤ atoiL "1000".data ∧ atoiL "1000".data ≤ 15000)]
  refine ⟨show (1000000000:Int) / atoiL "1000".data = 1000000 by decide, ?_, ?_⟩
  · simp only [pubIf, hm, if_pos]
    rw [str_append_assoc, str_append_assoc,
      show ("/COMMAND/SET_RATE/ALL/SUCCESS/Sampling rate set to " ++
        (String.mk "1000".data ++ " Hz") : String) =
        "/COMMAND/SET_RATE/ALL/SUCCESS/Sampling rate set to 1000 Hz" from by decide]
  · simp [sampler_tick, sampler_target_interval, hiv]

/-- C2 witness: the non-reload theorem at a concrete state and sampler. -/
theorem set_rate_never_reloaded_by_sampler_witness :
    sAll.sample_interval_ns = 12500000 ∧
    (processCommand envAllOk 0 "SET_RATE/1000" sAll).state.sample_interval_ns = 1000000 ∧
    (sampler_tick (sampler_target_interval sAll) zeroSample stFull).next_sample_time =
      stFull.next_sample_time + 12500000 :=
  ⟨rfl,
   (set_rate_never_reloaded_by_sampler envAllOk 0 sAll stFull zeroSample rfl rfl).1,
   (set_rate_never_reloaded_by_sampler envAllOk 0 sAll stFull zeroSample rfl rfl).2.2⟩

/-! ### Claim C4 — MOVE call order and the missing rollback -/

/-- C4 counterexample: MOVE on a connected axis where `set_target`
succeeds and the enable fails publishes the FAILED result, but no
`set_move_enable(false)` call is ever issued — the claimed best-effort
rollback does not exist in the code (lines 791-802). -/
theorem move_enable_failure_has_no_rollback_call :
    (processCommand envEnableFails 3 "MOVE/X/100" sAll).pubs =
      [⟨resultTopic, "3/COMMAND/MOVE/X/FAILED/Failed to enable movement", 1⟩] ∧
    (processCommand envEnableFails 3 "MOVE/X/100" sAll).calls =
      [.controlTargetPosition 0 0 100, .controlMove 0 0 true] ∧
    DalCall.controlMove 0 0 false ∉
      (processCommand envEnableFails 3 "MOVE/X/100" sAll).calls := by
  refine ⟨by decide, by decide, by decide⟩

/-- C4 (amended): for every well-formed MOVE on a connected axis the
dispatcher calls `set_target` first and `set_move_enable(true)` second
(the latter only when the former succeeded); when enabling fails it
publishes the FAILED result, but it never issues a `set_move_enable(false)`
rollback call. -/
theorem move_call_order_no_rollback (env : Env) (ts : Nat) (s : SysState)
    (ax pos : String) (c a : Nat)
    (hax : axis_name_to_physical ax.data = some (c, a))
    (hsl : '/' ∉ ax.data) (hpne : pos ≠ "") (hnl : '\n' ∉ pos.data)
    (hconn : connAt s c a = true) :
    ((env.dal (.controlTargetPosition c a (atoiL pos.data)) = 0 →
        (processCommand env ts ("MOVE/" ++ ax ++ "/" ++ pos) s).calls =
          [.controlTargetPosition c a (atoiL pos.data), .controlMove c a true]) ∧
     (env.dal (.controlTargetPosition c a (atoiL pos.data)) ≠ 0 →
        (processCommand env ts ("MOVE/" ++ ax ++ "/" ++ pos) s).calls =
          [.controlTargetPosition c a (atoiL pos.data)]) ∧
     (env.dal (.controlTargetPosition c a (atoiL pos.data)) = 0 →
      env.dal (.controlMove c a true) ≠ 0 →
      s.mqtt_connected = true →
        (processCommand env ts ("MOVE/" ++ ax ++ "/" ++ pos) s).pubs =
          [⟨resultTopic, Nat.repr ts ++ "/COMMAND/MOVE/" ++ ax
            ++ "/FAILED/Failed to enable movement", 1⟩]) ∧
     DalCall.controlMove c a false ∉
       (processCommand env ts ("MOVE/" ++ ax ++ "/" ++ pos) s).calls) := by
  rw [processCommand_move env ts s ax pos c a hax hsl hpne hnl, if_pos hconn]
  by_cases ht : env.dal (.controlTargetPosition c a (atoiL pos.data)) = 0
  · rw [if_pos ht]
    by_cases he : env.dal (.controlMove c a true) = 0
    · rw [if_pos he]
      exact ⟨fun _ => rfl, fun hc => absurd ht hc, fun _ hc => absurd he hc,
        by simp⟩
    · rw [if_neg he]
      refine ⟨fun _ => rfl, fun hc => absurd ht hc, fun _ _ hm => ?_, by simp⟩
      simp [pubIf, hm]
  · rw [if_neg ht]
    exact ⟨fun hc => absurd hc ht, fun _ => rfl, fun hc => absurd hc ht, by simp⟩

/-- C4 witness: the order/no-rollback theorem at `MOVE/X/100` with a
device that accepts the target and refuses the enable. -/
theorem move_call_order_no_rollback_witness :
    connAt sAll 0 0 = true ∧
    (processCommand envEnableFails 3 ("MOVE/" ++ "X" ++ "/" ++ "100") sAll).calls =
      [.controlTargetPosition 0 0 (atoiL "100".data), .controlMove 0 0 true] ∧
    DalCall.controlMove 0 0 false ∉
      (processCommand envEnableFails 3 ("MOVE/" ++ "X" ++ "/" ++ "100") sAll).calls :=
  ⟨rfl,
   (move_call_order_no_rollback envEnableFails 3 sAll "X" "100" 0 0
      (by decide) (by decide) (by decide) (by decide) rfl).1 (by decide),
   (move_call_order_no_rollback envEnableFails 3 sAll "X" "100" 0 0
      (by decide) (by decide) (by decide) (by decide) rfl).2.2.2⟩

/-! ### Claim C10 — MOVE parses its token with atoi -/

/-- C10: the MOVE position token is converted with `atoi`, so a
non-numeric token parses to 0 and the command is executed (target 0,
movement enabled, SUCCESS result) rather than rejected as malformed;
`atoiL "abc".data = 0` instantiates the `MOVE/X/abc` example. -/
theorem move_non_numeric_token_moves_to_zero (env : Env) (ts : Nat)
    (s : SysState) (ax pos : String) (c a : Nat)
    (hax : axis_name_to_physical ax.data = some (c, a))
    (hsl : '/' ∉ ax.data) (hpne : pos ≠ "") (hnl : '\n' ∉ pos.data)
    (hconn : connAt s c a = true) (hz : atoiL pos.data = 0)
    (ht : env.dal (.controlTargetPosition c a 0) = 0)
    (he : env.dal (.controlMove c a true) = 0) (hm : s.mqtt_connected = true) :
    (processCommand env ts ("MOVE/" ++ ax ++ "/" ++ pos) s).calls =
      [.controlTargetPosition c a 0, .controlMove c a true] ∧
    (processCommand env ts ("MOVE/" ++ ax ++ "/" ++ pos) s).pubs =
      [⟨resultTopic, Nat.repr ts ++ "/COMMAND/MOVE/" ++ ax
        ++ "/SUCCESS/Movement started to " ++ pos, 1⟩] ∧
    atoiL "abc".data = 0 := by
  rw [processCommand_move env ts s ax pos c a hax hsl hpne hnl, if_pos hconn,
    hz, if_pos ht, if_pos he]
  refine ⟨rfl, ?_, by decide⟩
  simp [pubIf, hm]

/-- C10 witness: `MOVE/X/abc` on a connected axis with an all-accepting
device sets the target to 0 and starts the movement. -/
theorem move_non_numeric_token_moves_to_zero_witness :
    atoiL "abc".data = 0 ∧
    (processCommand envAllOk 7 ("MOVE/" ++ "X" ++ "/" ++ "abc") sAll).calls =
      [.controlTargetPosition 0 0 0, .controlMove 0 0 true] ∧
    (processCommand envAllOk 7 ("MOVE/" ++ "X" ++ "/" ++ "abc") sAll).pubs =
      [⟨resultTopic, Nat.repr 7 ++ "/COMMAND/MOVE/" ++ "X"
        ++ "/SUCCESS/Movement started to " ++ "abc", 1⟩] :=
  ⟨by decide,
   (move_non_numeric_token_moves_to_zero envAllOk 7 sAll "X" "abc" 0 0
      (by decide) (by decide) (by decide) (by decide) rfl (by decide) rfl rfl rfl).1,
   (move_non_numeric_token_moves_to_zero envAllOk 7 sAll "X" "abc" 0 0
      (by decide) (by decide) (by decide) (by decide) rfl (by decide) rfl rfl rfl).2.1⟩

/-! ### Claim C9 — counter conservation across the run -/

lemma try_read_empty (b : LockFreeBuffer) (h : b.read_pos = b.write_pos) :
    try_read b = (none, b) := by
  unfold try_read
  rw [if_pos h]

lemma try_read_nonempty (b : LockFreeBuffer) (h : ¬ b.read_pos = b.write_pos) :
    try_read b =
      (some (b.buf b.read_pos),
        { b with read_pos := (b.read_pos + 1) % RING_SIZE }) := by
  unfold try_read
  rw [if_neg h]

lemma available_advance (b : LockFreeBuffer) (hw : b.write_pos < RING_SIZE)
    (hr : b.read_pos < RING_SIZE) (h : ¬ b.read_pos = b.write_pos) :
    available { b with read_pos := (b.read_pos + 1) % RING_SIZE } + 1 =
      available b ∧
    (b.read_pos + 1) % RING_SIZE < RING_SIZE := by
  unfold available RING_SIZE at *
  dsimp only
  constructor
  · split_ifs <;> omega
  · omega

lemma try_write_spec (b : LockFreeBuffer) (x : PositionSample)
    (hw : b.write_pos < RING_SIZE) (hr : b.read_pos < RING_SIZE) :
    ((try_write b x).2).read_pos = b.read_pos ∧
    ((try_write b x).2).write_pos < RING_SIZE ∧
    available (try_write b x).2 =
      (if (try_write b x).1 then available b + 1 else available b) := by
  by_cases hf : (b.write_pos + 1) % RING_SIZE = b.read_pos
  · have he : try_write b x = (false, b) := by
      simp only [try_write]
      rw [if_pos hf]
    rw [he]
    exact ⟨rfl, hw, rfl⟩
  · have he : try_write b x =
        (true,
          { b with
            buf := fun i => if i = b.write_pos then x else b.buf i,
            write_pos := (b.write_pos + 1) % RING_SIZE }) := by
      simp only [try_write]
      rw [if_neg hf]
    rw [he]
    refine ⟨rfl, ?_, ?_⟩
    · show (b.write_pos + 1) % RING_SIZE < RING_SIZE
      unfold RING_SIZE at *
      omega
    · show available _ = available b + 1
      unfold available RING_SIZE at *
      dsimp only
      split_ifs <;> omega

lemma drainLoop_spec (fuel : Nat) :
    ∀ (b : LockFreeBuffer) (acc : List PositionSample),
      b.write_pos < RING_SIZE → b.read_pos < RING_SIZE →
      (drainLoop fuel b acc).2.write_pos = b.write_pos ∧
      (drainLoop fuel b acc).2.read_pos < RING_SIZE ∧
      (drainLoop fuel b acc).1.length + available (drainLoop fuel b acc).2 =
        acc.length + available b := by
  induction fuel with
  | zero => exact fun b acc _ hr => ⟨rfl, hr, rfl⟩
  | succ n ih =>
    intro b acc hw hr
    by_cases hre : b.read_pos = b.write_pos
    · have hdl : drainLoop (n + 1) b acc = (acc, b) := by
        simp only [drainLoop, try_read_empty b hre]
      rw [hdl]
      exact ⟨rfl, hr, rfl⟩
    · have hdl : drainLoop (n + 1) b acc =
          drainLoop n { b with read_pos := (b.read_pos + 1) % RING_SIZE }
            (acc ++ [b.buf b.read_pos]) := by
        simp only [drainLoop, try_read_nonempty b hre]
      have hadv := available_advance b hw hr hre
      have hrec := ih { b with read_pos := (b.read_pos + 1) % RING_SIZE }
        (acc ++ [b.buf b.read_pos]) hw hadv.2
      rw [hdl]
      refine ⟨hrec.1, hrec.2.1, ?_⟩
      have hlen := hrec.2.2
      simp only [List.length_append, List.length_cons, List.length_nil] at hlen
      omega

lemma pipeline_tick_inv (st : PipelineState) (smp : PositionSample)
    (h : PipelineInv st) : PipelineInv (pipelineStep st (.tick smp)) := by
  obtain ⟨hw, hr, hc⟩ := h
  obtain ⟨h1, h2, h3⟩ := try_write_spec st.ring smp hw hr
  simp only [pipelineStep]
  refine ⟨h2, h1 ▸ hr, ?_⟩
  dsimp only
  cases hcase : (try_write st.ring smp).1 <;> rw [hcase] at h3 <;>
    simp [hcase] at h3 ⊢ <;> omega

lemma pipeline_batch_inv (st : PipelineState) (conn ok : Bool)
    (h : PipelineInv st) : PipelineInv (pipelineStep st (.batch conn ok)) := by
  obtain ⟨hw, hr, hc⟩ := h
  have hd := drainLoop_spec 1000 st.ring [] hw hr
  simp only [pipelineStep]
  refine ⟨hd.1 ▸ hw, hd.2.1, ?_⟩
  dsimp only
  have hlen := hd.2.2
  simp only [List.length_nil] at hlen
  cases hco : conn && ok <;> simp [hco] <;> omega

lemma pipeline_step_inv (st : PipelineState) (ev : PipelineEv)
    (h : PipelineInv st) : PipelineInv (pipelineStep st ev) := by
  cases ev with
  | tick smp => exact pipeline_tick_inv st smp h
  | batch conn ok => exact pipeline_batch_inv st conn ok h

lemma pipeline_run_inv (evs : List PipelineEv) :
    ∀ st : PipelineState, PipelineInv st →
      PipelineInv (evs.foldl pipelineStep st) := by
  induction evs with
  | nil => exact fun st h => h
  | cons ev evs ih => exact fun st h => ih _ (pipeline_step_inv st ev h)

lemma pipeline_step_lost (st : PipelineState) (ev : PipelineEv)
    (hok : evOk ev = true) : (pipelineStep st ev).lost = st.lost := by
  cases ev with
  | tick smp => rfl
  | batch conn ok =>
    have hco : (conn && ok) = true := hok
    simp [pipelineStep, hco]

lemma pipeline_run_lost (evs : List PipelineEv) :
    ∀ st : PipelineState, evs.all evOk = true →
      (evs.foldl pipelineStep st).lost = st.lost := by
  induction evs with
  | nil => exact fun st _ => rfl
  | cons ev evs ih =>
    intro st hall
    simp only [List.all_cons, Bool.and_eq_true] at hall
    rw [List.foldl_cons, ih _ hall.2, pipeline_step_lost st ev hall.1]

/-- C9 counterexample: capture one sample, then run one publisher batch
whose `mosquitto_publish` fails.  The sample leaves the ring but is
counted neither as published nor as dropped, so
`captured = published + dropped + currently_buffered` fails (1 ≠ 0). -/
theorem failed_batch_breaks_claimed_conservation :
    (pipelineRun [.tick zeroSample, .batch true false]).total_captured = 1 ∧
    (pipelineRun [.tick zeroSample, .batch true false]).total_published = 0 ∧
    (pipelineRun [.tick zeroSample, .batch true false]).total_dropped = 0 ∧
    available (pipelineRun [.tick zeroSample, .batch true false]).ring = 0 ∧
    (pipelineRun [.tick zeroSample, .batch true false]).total_captured ≠
      (pipelineRun [.tick zeroSample, .batch true false]).total_published +
      (pipelineRun [.tick zeroSample, .batch true false]).total_dropped +
      available (pipelineRun [.tick zeroSample, .batch true false]).ring := by
  refine ⟨by decide, by decide, by decide, by decide, by decide⟩

/-- C9 (amended): across every run,
`captured = published + currently_buffered + lost`, where the ghost
counter `lost` collects samples drained from the ring by a batch pass that
was not published (bus disconnected or publish failed); dropped samples
were never captured and do not enter the equation.  When every batch pass
publishes successfully, `lost = 0` and the conservation law
`captured = published + currently_buffered` holds. -/
theorem ring_conservation_with_lost (evs : List PipelineEv) :
    (pipelineRun evs).total_captured =
      (pipelineRun evs).total_published + available (pipelineRun evs).ring +
        (pipelineRun evs).lost ∧
    (evs.all evOk = true → (pipelineRun evs).lost = 0) := by
  have h := pipeline_run_inv evs pipelineInit ⟨by decide, by decide, by decide⟩
  exact ⟨h.2.2, fun hok => pipeline_run_lost evs pipelineInit hok⟩

/-- C9 witness: the conservation theorem at a two-event run whose batch
publish succeeds. -/
theorem ring_conservation_with_lost_witness :
    ([PipelineEv.tick zeroSample, PipelineEv.batch true true].all evOk = true) ∧
    (pipelineRun [.tick zeroSample, .batch true true]).total_captured =
      (pipelineRun [.tick zeroSample, .batch true true]).total_published +
      available (pipelineRun [.tick zeroSample, .batch true true]).ring +
      (pipelineRun [.tick zeroSample, .batch true true]).lost ∧
    (pipelineRun [.tick zeroSample, .batch true true]).lost = 0 :=
  ⟨by decide,
   (ring_conservation_with_lost [.tick zeroSample, .batch true true]).1,
   (ring_conservation_with_lost [.tick zeroSample, .batch true true]).2 (by decide)⟩

end ECC
